import Mathlib

/-!
Verification of the coordinate model and progression formulas of the
screeps-game-api core (src/local/room_coordinate.rs, src/constants/math.rs),
shallowly embedded in Lean 4.  Machine integers are modelled as `Nat` with
explicit `% 2 ^ w` where overflow can matter; Rust panics are modelled as
`Option.none`; fallible operations return `Except OutOfBoundsError`.
-/

/-- Modelled from the spec: the grid side length constant `ROOM_SIZE` lives in
the `constants` module, which is not part of the provided sources; the spec
fixes it as "a process-wide compile-time constant, canonically 50". -/
def ROOM_SIZE : Nat := 50

/-- `pub(crate) const ROOM_AREA: usize = (ROOM_SIZE as usize) * (ROOM_SIZE as usize);` -/
def ROOM_AREA : Nat := ROOM_SIZE * ROOM_SIZE

/-- `pub struct OutOfBoundsError(u8);` — carries the offending raw value. -/
structure OutOfBoundsError where
  val : Nat
deriving DecidableEq, Repr

/-- `pub struct RoomCoordinate(u8);` restricted to values produced by the safe
API, whose invariant is `val < ROOM_SIZE`. -/
structure RoomCoordinate where
  val : Nat
  isLt : val < ROOM_SIZE

instance : DecidableEq RoomCoordinate := fun a b =>
  if h : a.val = b.val then
    .isTrue (by cases a; cases b; simp_all)
  else
    .isFalse (by intro e; cases e; exact h rfl)

theorem RoomCoordinate.val_inj {a b : RoomCoordinate} (h : a.val = b.val) : a = b := by
  cases a; cases b; simp_all

/-- `RoomCoordinate::new`: `if coord < ROOM_SIZE { Ok(..) } else { Err(OutOfBoundsError(coord)) }` -/
def RoomCoordinate.new (coord : Nat) : Except OutOfBoundsError RoomCoordinate :=
  if h : coord < ROOM_SIZE then .ok ⟨coord, h⟩ else .error ⟨coord⟩

/-- `pub struct RoomXY { pub x: RoomCoordinate, pub y: RoomCoordinate }` -/
structure RoomXY where
  x : RoomCoordinate
  y : RoomCoordinate

instance : DecidableEq RoomXY := fun a b =>
  if h : a.x = b.x ∧ a.y = b.y then
    .isTrue (by cases a; cases b; simp_all)
  else
    .isFalse (by intro e; cases e; exact h ⟨rfl, rfl⟩)

theorem RoomXY.components_inj {a b : RoomXY} (hx : a.x = b.x) (hy : a.y = b.y) : a = b := by
  cases a; cases b; simp_all

/-- `impl TryFrom<(u8, u8)> for RoomXY`: checked construction of both axes in
order `x` then `y`, propagating the first out-of-bounds error (the `?` operator). -/
def RoomXY.try_from (xy : Nat × Nat) : Except OutOfBoundsError RoomXY :=
  match RoomCoordinate.new xy.1 with
  | .error e => .error e
  | .ok x =>
    match RoomCoordinate.new xy.2 with
    | .error e => .error e
    | .ok y => .ok ⟨x, y⟩

/-- `xy_to_linear_index`: `((xy.x.0 as usize) * (ROOM_SIZE as usize)) + (xy.y.0 as usize)` -/
def xy_to_linear_index (xy : RoomXY) : Nat :=
  xy.x.val * ROOM_SIZE + xy.y.val

/-- `linear_index_to_xy`: asserts `idx < ROOM_AREA` (panic modelled as `none`),
then reconstructs the coordinates from quotient and remainder by `ROOM_SIZE`
via the unchecked constructor (here: direct construction with the derived
range proofs). -/
def linear_index_to_xy (idx : Nat) : Option RoomXY :=
  if h : idx < ROOM_AREA then
    some
      ⟨⟨idx / ROOM_SIZE, by
          simp only [ROOM_AREA, ROOM_SIZE] at h ⊢; omega⟩,
       ⟨idx % ROOM_SIZE, by
          simp only [ROOM_SIZE]; omega⟩⟩
  else
    none

/-- The non-human-readable branch of `impl Serialize for RoomXY`:
`let packed: u16 = (u16::from(xy.0) << 8) | u16::from(xy.1);` — u16
arithmetic, hence the explicit wrap at `2 ^ 16`. -/
def serialize_compact (xy : RoomXY) : Nat :=
  ((xy.x.val <<< 8) ||| xy.y.val) % 2 ^ 16

/-- The non-human-readable branch of `impl Deserialize for RoomXY`:
`let xy = (((packed >> 8) & 0xFF) as u8, (packed & 0xFF) as u8);` followed by
`RoomXY::try_from(xy)`, the serde error keeping the offending byte `err.0`. -/
def deserialize_compact (packed : Nat) : Except OutOfBoundsError RoomXY :=
  RoomXY.try_from ((packed >>> 8) &&& 0xFF, packed &&& 0xFF)

/-- `struct ReadableXY { x: RoomCoordinate, y: RoomCoordinate }` at wire level:
each field is transmitted as a `u8` (the `into = "u8"` serde attribute). -/
structure ReadableXY where
  x : Nat
  y : Nat
deriving DecidableEq, Repr

/-- The human-readable branch of `impl Serialize for RoomXY`:
`ReadableXY::from(*self).serialize(serializer)`. -/
def serialize_readable (xy : RoomXY) : ReadableXY :=
  ⟨xy.x.val, xy.y.val⟩

/-- The human-readable branch of `impl Deserialize for RoomXY`: each field is
decoded through the `try_from = "u8"` checked constructor, `x` then `y`. -/
def deserialize_readable (r : ReadableXY) : Except OutOfBoundsError RoomXY :=
  match RoomCoordinate.new r.x with
  | .error e => .error e
  | .ok x =>
    match RoomCoordinate.new r.y with
    | .error e => .error e
    | .ok y => .ok ⟨x, y⟩

/-- `#[derive(Default)]` on `RoomCoordinate(u8)`: the field default `0u8`. -/
def RoomCoordinate.default : RoomCoordinate :=
  ⟨0, by simp only [ROOM_SIZE]; omega⟩

/-- `#[derive(Default)]` on `RoomXY`: both fields take their defaults. -/
def RoomXY.default : RoomXY :=
  ⟨RoomCoordinate.default, RoomCoordinate.default⟩

/-- Modelled from the spec: the exponent `POWER_LEVEL_POW` of the
processed-power formula lives in the missing `constants` module; the in-repo
tests (`power_for_gpl(2) == 4_000`, quadratic growth throughout) pin it to 2. -/
def POWER_LEVEL_POW : Nat := 2

/-- Modelled from the spec: the multiplier `POWER_LEVEL_MULTIPLY` of the
processed-power formula lives in the missing `constants` module; the in-repo
tests (`power_for_gpl(1) == 1_000`) pin it to 1000. -/
def POWER_LEVEL_MULTIPLY : Nat := 1000

/-- `power_for_gpl`: `(level as u128).pow(POWER_LEVEL_POW) * POWER_LEVEL_MULTIPLY as u128`
in u128 arithmetic, hence the explicit wraps at `2 ^ 128`. -/
def power_for_gpl (level : Nat) : Nat :=
  ((level ^ POWER_LEVEL_POW) % 2 ^ 128 * POWER_LEVEL_MULTIPLY) % 2 ^ 128

/-- Debug-mode u32 subtraction as used by `control_points_for_gcl`'s
`level - 1` step: `none` models the overflow panic. -/
def u32_sub_checked (a b : Nat) : Option Nat :=
  if b ≤ a then some (a - b) else none

/-- The integer stage of `control_points_for_gcl(level)`: the u32 computation
`level - 1` whose result is fed (via `f64::from`) into the floating-point
power/multiply.  `none` models the debug-mode arithmetic-underflow panic. -/
def control_points_for_gcl_base (level : Nat) : Option Nat :=
  u32_sub_checked level 1

/-- A concrete in-range position used by witnesses. -/
def sample_xy : RoomXY :=
  ⟨⟨7, by simp only [ROOM_SIZE]; omega⟩, ⟨42, by simp only [ROOM_SIZE]; omega⟩⟩

/-- Bit-level core of the compact encoding, settled by exhaustive check over
the 50 × 50 in-range coordinate pairs. -/
theorem compact_bits_core :
    ∀ x < 50, ∀ y < 50,
      (((x <<< 8) ||| y) % 2 ^ 16) = x * 2 ^ 8 + y ∧
      ((((x <<< 8) ||| y) % 2 ^ 16) >>> 8) &&& 0xFF = x ∧
      (((x <<< 8) ||| y) % 2 ^ 16) &&& 0xFF = y := by
  decide

/-- C3: `RoomCoordinate::new(v)` succeeds iff `v < ROOM_SIZE`, returning the
value unchanged on success and an `OutOfBoundsError` carrying `v` otherwise;
`new(49)` succeeds and `new(50)` fails with `OutOfBounds(50)`. -/
theorem RoomCoordinate.new_spec (v : Nat) (hv : v < 256) :
    ((RoomCoordinate.new v).isOk ↔ v < ROOM_SIZE) ∧
    (∀ c, RoomCoordinate.new v = .ok c → c.val = v) ∧
    (ROOM_SIZE ≤ v → RoomCoordinate.new v = .error ⟨v⟩) ∧
    (RoomCoordinate.new 49).isOk ∧
    RoomCoordinate.new 50 = .error ⟨50⟩ := by
  refine ⟨?_, ?_, ?_, by decide, by rfl⟩
  · unfold RoomCoordinate.new
    split
    · next h => simp [Except.isOk, Except.toBool, h]
    · next h => simp [Except.isOk, Except.toBool]; omega
  · intro c hc
    unfold RoomCoordinate.new at hc
    split at hc
    · cases hc; rfl
    · cases hc
  · intro hge
    unfold RoomCoordinate.new
    split <;> [omega; rfl]

/-- Witness for C3 at `v = 49`. -/
theorem RoomCoordinate.new_spec_witness :
    (RoomCoordinate.new 49).isOk := by
  exact (RoomCoordinate.new_spec 49 (by decide)).2.2.2.1

/-- C1: `index = x * SIZE + y` is a bijection between valid positions and flat
indices in `[0, SIZE * SIZE)`: `linear_index_to_xy` inverts
`xy_to_linear_index` on every valid position, and `xy_to_linear_index`
inverts `linear_index_to_xy` on every index below `ROOM_AREA`. -/
theorem index_bijection :
    (∀ p : RoomXY, linear_index_to_xy (xy_to_linear_index p) = some p) ∧
    (∀ i, i < ROOM_AREA → (linear_index_to_xy i).map xy_to_linear_index = some i) := by
  constructor
  · intro p
    obtain ⟨⟨x, hx⟩, ⟨y, hy⟩⟩ := p
    simp only [ROOM_SIZE] at hx hy
    unfold linear_index_to_xy xy_to_linear_index
    rw [dif_pos (by simp only [ROOM_AREA, ROOM_SIZE]; omega)]
    refine congrArg some (RoomXY.components_inj ?_ ?_)
    · exact RoomCoordinate.val_inj (by simp only [ROOM_SIZE]; omega)
    · exact RoomCoordinate.val_inj (by simp only [ROOM_SIZE]; omega)
  · intro i hi
    unfold linear_index_to_xy
    rw [dif_pos hi]
    show some (i / ROOM_SIZE * ROOM_SIZE + i % ROOM_SIZE) = some i
    refine congrArg some ?_
    simp only [ROOM_SIZE]
    omega

/-- Witness for C1 at position `(7, 42)` and index `123`. -/
theorem index_bijection_witness :
    linear_index_to_xy (xy_to_linear_index sample_xy) = some sample_xy ∧
    (linear_index_to_xy 123).map xy_to_linear_index = some 123 :=
  ⟨index_bijection.1 sample_xy, index_bijection.2 123 (by decide)⟩

/-- C8: `linear_index_to_xy` panics (modelled `none`) on every index at or
above `ROOM_AREA` and on no other input; below `ROOM_AREA` it returns the
position whose `x` is the quotient and whose `y` the remainder of division by
`ROOM_SIZE`, both in range. -/
theorem linear_index_to_xy_total_below_area :
    (∀ i, ROOM_AREA ≤ i → linear_index_to_xy i = none) ∧
    (∀ i, i < ROOM_AREA → ∃ xy, linear_index_to_xy i = some xy ∧
      xy.x.val = i / ROOM_SIZE ∧ xy.y.val = i % ROOM_SIZE ∧
      xy.x.val < ROOM_SIZE ∧ xy.y.val < ROOM_SIZE) := by
  constructor
  · intro i hi
    unfold linear_index_to_xy
    rw [dif_neg (by omega)]
  · intro i hi
    refine ⟨⟨⟨i / ROOM_SIZE, ?_⟩, ⟨i % ROOM_SIZE, ?_⟩⟩, ?_, rfl, rfl, ?_, ?_⟩
    · simp only [ROOM_AREA, ROOM_SIZE] at hi ⊢; omega
    · simp only [ROOM_SIZE]; omega
    · unfold linear_index_to_xy
      rw [dif_pos hi]
    · simp only [ROOM_AREA, ROOM_SIZE] at hi ⊢; omega
    · simp only [ROOM_SIZE]; omega

/-- Witness for C8 at indices `2500` (out of range) and `123` (in range). -/
theorem linear_index_to_xy_total_below_area_witness :
    linear_index_to_xy 2500 = none ∧
    ∃ xy, linear_index_to_xy 123 = some xy ∧
      xy.x.val = 123 / ROOM_SIZE ∧ xy.y.val = 123 % ROOM_SIZE ∧
      xy.x.val < ROOM_SIZE ∧ xy.y.val < ROOM_SIZE :=
  ⟨linear_index_to_xy_total_below_area.1 2500 (by decide),
   linear_index_to_xy_total_below_area.2 123 (by decide)⟩

theorem RoomCoordinate.new_ok_of_lt {a : Nat} (h : a < ROOM_SIZE) :
    RoomCoordinate.new a = .ok ⟨a, h⟩ :=
  dif_pos h

theorem RoomCoordinate.new_error_of_le {a : Nat} (h : ROOM_SIZE ≤ a) :
    RoomCoordinate.new a = .error ⟨a⟩ :=
  dif_neg (by omega)

theorem RoomXY.try_from_ok (a b : Nat) (ha : a < ROOM_SIZE) (hb : b < ROOM_SIZE) :
    RoomXY.try_from (a, b) = .ok ⟨⟨a, ha⟩, ⟨b, hb⟩⟩ := by
  unfold RoomXY.try_from
  rw [show ((a, b).1 : Nat) = a from rfl, show ((a, b).2 : Nat) = b from rfl,
    RoomCoordinate.new_ok_of_lt ha, RoomCoordinate.new_ok_of_lt hb]

theorem RoomXY.try_from_err_x (a b : Nat) (ha : ROOM_SIZE ≤ a) :
    RoomXY.try_from (a, b) = .error ⟨a⟩ := by
  unfold RoomXY.try_from
  rw [show ((a, b).1 : Nat) = a from rfl, RoomCoordinate.new_error_of_le ha]

theorem RoomXY.try_from_err_y (a b : Nat) (ha : a < ROOM_SIZE) (hb : ROOM_SIZE ≤ b) :
    RoomXY.try_from (a, b) = .error ⟨b⟩ := by
  unfold RoomXY.try_from
  rw [show ((a, b).1 : Nat) = a from rfl, show ((a, b).2 : Nat) = b from rfl,
    RoomCoordinate.new_ok_of_lt ha, RoomCoordinate.new_error_of_le hb]

/-- C2: compact decoding succeeds exactly when both extracted bytes are below
`ROOM_SIZE`; otherwise it fails with an out-of-bounds error carrying the
offending byte (`x` checked first), with no other rejection cases; decoding
`(50 <<< 8) ||| 3` yields the error carrying `50`. -/
theorem deserialize_compact_spec (packed : Nat) (hp : packed < 2 ^ 16) :
    ((deserialize_compact packed).isOk ↔
      (packed >>> 8) &&& 0xFF < ROOM_SIZE ∧ packed &&& 0xFF < ROOM_SIZE) ∧
    (∀ xy, deserialize_compact packed = .ok xy →
      xy.x.val = (packed >>> 8) &&& 0xFF ∧ xy.y.val = packed &&& 0xFF) ∧
    (ROOM_SIZE ≤ (packed >>> 8) &&& 0xFF →
      deserialize_compact packed = .error ⟨(packed >>> 8) &&& 0xFF⟩) ∧
    ((packed >>> 8) &&& 0xFF < ROOM_SIZE → ROOM_SIZE ≤ packed &&& 0xFF →
      deserialize_compact packed = .error ⟨packed &&& 0xFF⟩) ∧
    deserialize_compact ((50 <<< 8) ||| 3) = .error ⟨50⟩ := by
  refine ⟨?_, ?_, ?_, ?_, by rfl⟩
  · by_cases ha : (packed >>> 8) &&& 0xFF < ROOM_SIZE
    · by_cases hb : packed &&& 0xFF < ROOM_SIZE
      · unfold deserialize_compact
        rw [RoomXY.try_from_ok _ _ ha hb]
        simp [Except.isOk, Except.toBool, ha, hb]
      · unfold deserialize_compact
        rw [RoomXY.try_from_err_y _ _ ha (by omega)]
        simp [Except.isOk, Except.toBool, hb]
    · unfold deserialize_compact
      rw [RoomXY.try_from_err_x _ _ (by omega)]
      simp [Except.isOk, Except.toBool, ha]
  · intro xy hxy
    by_cases ha : (packed >>> 8) &&& 0xFF < ROOM_SIZE
    · by_cases hb : packed &&& 0xFF < ROOM_SIZE
      · unfold deserialize_compact at hxy
        rw [RoomXY.try_from_ok _ _ ha hb] at hxy
        cases hxy
        exact ⟨rfl, rfl⟩
      · unfold deserialize_compact at hxy
        rw [RoomXY.try_from_err_y _ _ ha (by omega)] at hxy
        cases hxy
    · unfold deserialize_compact at hxy
      rw [RoomXY.try_from_err_x _ _ (by omega)] at hxy
      cases hxy
  · intro ha
    unfold deserialize_compact
    exact RoomXY.try_from_err_x _ _ ha
  · intro ha hb
    unfold deserialize_compact
    exact RoomXY.try_from_err_y _ _ ha hb

/-- Witness for C2 at the in-range packed value `(7 <<< 8) ||| 42`. -/
theorem deserialize_compact_spec_witness :
    (deserialize_compact ((7 <<< 8) ||| 42)).isOk ↔
      (((7 <<< 8) ||| 42) >>> 8) &&& 0xFF < ROOM_SIZE ∧
      ((7 <<< 8) ||| 42) &&& 0xFF < ROOM_SIZE :=
  (deserialize_compact_spec ((7 <<< 8) ||| 42) (by decide)).1

/-- C6: encode-then-decode under the same mode is lossless for every valid
position, in both the compact (packed u16) and readable (structured) modes. -/
theorem serialization_roundtrip :
    (∀ p : RoomXY, deserialize_compact (serialize_compact p) = .ok p) ∧
    (∀ p : RoomXY, deserialize_readable (serialize_readable p) = .ok p) := by
  constructor
  · intro p
    obtain ⟨⟨x, hx⟩, ⟨y, hy⟩⟩ := p
    have hx' : x < 50 := by simpa only [ROOM_SIZE] using hx
    have hy' : y < 50 := by simpa only [ROOM_SIZE] using hy
    obtain ⟨-, h1, h2⟩ := compact_bits_core x hx' y hy'
    unfold deserialize_compact serialize_compact
    simp only
    rw [h1, h2, RoomXY.try_from_ok x y hx hy]
  · intro p
    obtain ⟨⟨x, hx⟩, ⟨y, hy⟩⟩ := p
    unfold deserialize_readable serialize_readable
    simp only
    rw [RoomCoordinate.new_ok_of_lt hx, RoomCoordinate.new_ok_of_lt hy]

/-- Witness for C6 at the position `(7, 42)`. -/
theorem serialization_roundtrip_witness :
    deserialize_compact (serialize_compact sample_xy) = .ok sample_xy ∧
    deserialize_readable (serialize_readable sample_xy) = .ok sample_xy :=
  ⟨serialization_roundtrip.1 sample_xy, serialization_roundtrip.2 sample_xy⟩

/-- C7: for every valid position, the compact encoding is exactly the 16-bit
value `(x <<< 8) ||| y`, i.e. `x * 2 ^ 8 + y`: it is below `2 ^ 16`, its bits
15–8 (the high byte) are `x` and its bits 7–0 (the low byte) are `y`. -/
theorem serialize_compact_layout :
    ∀ p : RoomXY,
      serialize_compact p = p.x.val * 2 ^ 8 + p.y.val ∧
      serialize_compact p < 2 ^ 16 ∧
      serialize_compact p >>> 8 = p.x.val ∧
      serialize_compact p &&& 0xFF = p.y.val := by
  intro p
  obtain ⟨⟨x, hx⟩, ⟨y, hy⟩⟩ := p
  have hx' : x < 50 := by simpa only [ROOM_SIZE] using hx
  have hy' : y < 50 := by simpa only [ROOM_SIZE] using hy
  obtain ⟨h0, h1, h2⟩ := compact_bits_core x hx' y hy'
  refine ⟨h0, ?_, ?_, h2⟩
  · exact Nat.mod_lt _ (by norm_num)
  · show (((x <<< 8) ||| y) % 2 ^ 16) >>> 8 = x
    rw [h0, Nat.shiftRight_eq_div_pow]
    omega

/-- Witness for C7 at the position `(7, 42)`. -/
theorem serialize_compact_layout_witness :
    serialize_compact sample_xy = sample_xy.x.val * 2 ^ 8 + sample_xy.y.val :=
  (serialize_compact_layout sample_xy).1

/-- C4: `power_for_gpl(level)` equals `level ^ POWER_LEVEL_POW * POWER_LEVEL_MULTIPLY`
exactly (the u128 arithmetic never wraps) for every 32-bit level, including
zero, and takes the documented concrete values, with the result first
exceeding the 64-bit maximum between levels `135_818_791` and `135_818_792`. -/
theorem power_for_gpl_spec (level : Nat) (h : level < 2 ^ 32) :
    power_for_gpl level = level ^ POWER_LEVEL_POW * POWER_LEVEL_MULTIPLY ∧
    power_for_gpl 0 = 0 ∧
    power_for_gpl 1 = 1000 ∧
    power_for_gpl 135818791 = 18446743988701681000 ∧
    power_for_gpl 135818791 ≤ 2 ^ 64 - 1 ∧
    power_for_gpl 135818792 = 18446744260339264000 ∧
    2 ^ 64 - 1 < power_for_gpl 135818792 ∧
    power_for_gpl (2 ^ 32 - 1) = 18446744065119617025000 := by
  refine ⟨?_, by decide, by decide, by decide, by decide, by decide, by decide, by decide⟩
  have h2 : level ^ POWER_LEVEL_POW < 2 ^ 64 := by
    simp only [POWER_LEVEL_POW]
    calc level ^ 2 < (2 ^ 32) ^ 2 := Nat.pow_lt_pow_left h (by norm_num)
    _ = 2 ^ 64 := by norm_num
  unfold power_for_gpl
  rw [Nat.mod_eq_of_lt (lt_trans h2 (by norm_num))]
  refine Nat.mod_eq_of_lt ?_
  simp only [POWER_LEVEL_MULTIPLY]
  calc level ^ POWER_LEVEL_POW * 1000 < 2 ^ 64 * 1000 :=
    (Nat.mul_lt_mul_right (by norm_num)).mpr h2
  _ ≤ 2 ^ 128 := by norm_num

/-- Witness for C4 at `level = 7`. -/
theorem power_for_gpl_spec_witness :
    power_for_gpl 7 = 7 ^ POWER_LEVEL_POW * POWER_LEVEL_MULTIPLY :=
  (power_for_gpl_spec 7 (by decide)).1

/-- C5: the `level - 1` u32 step of `control_points_for_gcl` underflows and
panics (modelled as `none`) exactly at `level = 0`; for every positive level
it proceeds, yielding `level - 1`, so the zero case is never converted into a
recoverable error or a returned value. -/
theorem control_points_for_gcl_zero_panics :
    control_points_for_gcl_base 0 = none ∧
    (∀ level : Nat, 0 < level →
      ∃ b, control_points_for_gcl_base level = some b ∧ b = level - 1) := by
  constructor
  · rfl
  · intro level h
    refine ⟨level - 1, ?_, rfl⟩
    unfold control_points_for_gcl_base u32_sub_checked
    rw [if_pos (by omega : 1 ≤ level)]

/-- Witness for C5 at `level = 1`. -/
theorem control_points_for_gcl_zero_panics_witness :
    ∃ b, control_points_for_gcl_base 1 = some b ∧ b = 1 - 1 :=
  control_points_for_gcl_zero_panics.2 1 (by decide)

/-- C10: the derived defaults are a safe construction path: the default
coordinate is `0`, the default position is `(0, 0)`, both satisfy the bounds
invariant, and the default coordinate coincides with checked `new 0`. -/
theorem default_values_in_bounds :
    RoomCoordinate.default.val = 0 ∧
    RoomCoordinate.default.val < ROOM_SIZE ∧
    RoomXY.default.x.val = 0 ∧
    RoomXY.default.y.val = 0 ∧
    RoomXY.default.x.val < ROOM_SIZE ∧
    RoomXY.default.y.val < ROOM_SIZE ∧
    RoomCoordinate.new 0 = .ok RoomCoordinate.default :=
  ⟨rfl, by decide, rfl, rfl, by decide, by decide, by rfl⟩
